import Mathlib

/-!
Verification development for the connection-resilience and bot-lifecycle-control
core of the `US-trading-Crypto` dashboard front end
(`src/frontend/src/App.jsx`).  The JavaScript is shallowly embedded: the pure
URL-resolution helpers become Lean string functions over `List Char`, the
heartbeat / failure-count logic of `fetchData` becomes a step function on an
explicit state, the per-resource merge of one synchronizer tick becomes a
total function from fetch results to view state, and the chart-fetch
interleaving becomes a small event-step relation.
-/

set_option maxRecDepth 10000

/-! ## JavaScript string primitives, modelled over `String.data` -/

/-- Boolean list-prefix test (the semantics of JS `String.startsWith`). -/
def listPref : List Char → List Char → Bool
  | [], _ => true
  | _ :: _, [] => false
  | a :: as, b :: bs => (a == b) && listPref as bs

/-- JS `s.startsWith('http')` (App.jsx lines 44 and 569): a literal
four-character test, not a URL-scheme test. -/
def startsWithHttp (s : String) : Bool :=
  listPref "http".data s.data

/-- JS `s.replace(/\/$/, '')` (App.jsx lines 45 and 568): removes one
trailing slash when present. -/
def stripTrailingSlash (s : String) : String :=
  if s.data.getLast? = some '/' then String.mk s.data.dropLast else s

/-- JS `s.trim()` : strips leading and trailing whitespace. -/
def jsTrim (s : String) : String :=
  String.mk (((s.data.dropWhile Char.isWhitespace).reverse.dropWhile
    Char.isWhitespace).reverse)

/-- Substring containment on character lists, for JS `s.includes(sub)`. -/
def containsSub (needle : List Char) : List Char → Bool
  | [] => needle.isEmpty
  | c :: t => listPref needle (c :: t) || containsSub needle t

/-- JS `s.toUpperCase()`, character by character. -/
def toUpperStr (s : String) : String :=
  String.mk (s.data.map Char.toUpper)

/-! ## Endpoint Resolver (`getInitialApiBase`, App.jsx lines 36-46) -/

/-- The hard-coded last-resort endpoint of the resolver. -/
def renderDefaultUrl : String := "https://us-trading-bot-web.onrender.com"

/-- JS `window.location.hostname.includes('onrender.com')` (App.jsx line 40). -/
def hostOnRender (hostname : String) : Bool :=
  containsSub "onrender.com".data hostname.data

/-- The environment/host part of `getInitialApiBase` (App.jsx lines 39-45),
reached when the stored override is absent or empty.  `envUrl` models
`import.meta.env.VITE_API_URL || ''` (an unset variable is the empty
string). -/
def baseCandidate (envUrl hostname : String) : String :=
  if hostOnRender hostname then renderDefaultUrl else envUrl

/-- JS `if (!base.startsWith('http') && base) base = 'https://' + base`
(App.jsx line 44). -/
def withScheme (base : String) : String :=
  if startsWithHttp base = false ∧ base ≠ "" then "https://" ++ base else base

def resolveEnvPath (envUrl hostname : String) : String :=
  if stripTrailingSlash (withScheme (baseCandidate envUrl hostname)) = ""
  then renderDefaultUrl
  else stripTrailingSlash (withScheme (baseCandidate envUrl hostname))

/-- `getInitialApiBase` (App.jsx lines 36-46).  `saved` models
`localStorage.getItem('ANTIGRAVITY_API_OVERRIDE')` (`none` = key absent);
JS `if (saved) return saved` returns the stored string unchanged whenever it
is non-null and non-empty. -/
def getInitialApiBase (saved : Option String) (envUrl : String)
    (hostname : String) : String :=
  match saved with
  | some s => if s = "" then resolveEnvPath envUrl hostname else s
  | none => resolveEnvPath envUrl hostname

/-- The Save Route handler (App.jsx lines 567-574): the string written to
`localStorage` under the override key is
`manualUrl.trim().replace(/\/$/, '')`, prefixed with `https://` when it does
not start with the literal `http`. -/
def saveRoute (manualUrl : String) : String :=
  let url := stripTrailingSlash (jsTrim manualUrl)
  if startsWithHttp url then url else "https://" ++ url

/-- Predicate written from the spec's words (spec section 4.1: "prefixing
`https://` when no scheme is present"): a string has a scheme when it starts
with `http://` or `https://`.  Used only to compare the spec's notion of
normalization with the code's literal `startsWith('http')` test. -/
def hasSchemeSpec (s : String) : Bool :=
  listPref "http://".data s.data || listPref "https://".data s.data

/-! ## Heartbeat Monitor (`fetchData`, App.jsx lines 160-199)

One call of `fetchData` first awaits `GET /status/{id}`.  If that probe
succeeds, the status body (per the backend contract a JSON object, hence
truthy) makes the guarded block run: `setConnectionActive(true)` and
`setFailCount(0)`.  If the probe throws, the `catch` block increments
`failCount` and sets `connectionActive` to `false` once the new count has
reached the threshold (the literal `5` at App.jsx line 192). -/

/-- Connection-health state owned by the polling loop:
`connectionActive` / `failCount` of App.jsx lines 88-89. -/
structure HBState where
  connectionActive : Bool
  failCount : Nat
deriving DecidableEq

/-- Outcome of one heartbeat probe: the `GET /status/{id}` request either
returns its status object or throws (network error, non-2xx, 5s timeout). -/
inductive ProbeOutcome where
  | success
  | failure
deriving DecidableEq

/-- The failure threshold constant of the source (App.jsx line 192,
`newCount >= 5`). -/
def failThreshold : Nat := 5

/-- One heartbeat transition of `fetchData`, parameterized by the threshold
as the spec directs (spec section 9: the threshold is tunable
configuration). -/
def hbStep (threshold : Nat) (s : HBState) : ProbeOutcome → HBState
  | .success => ⟨true, 0⟩
  | .failure =>
      let n := s.failCount + 1
      ⟨if threshold ≤ n then false else s.connectionActive, n⟩

/-- Initial connection state (App.jsx lines 88-89:
`useState(false)`, `useState(0)`). -/
def hbInit : HBState := ⟨false, 0⟩

/-- State after a sequence of heartbeat outcomes from the initial state. -/
def hbRun (threshold : Nat) (tr : List ProbeOutcome) : HBState :=
  tr.foldl (hbStep threshold) hbInit

/-! ## JSON-like response bodies

`axios` hands each handler the parsed JSON body; the code inspects it only
through JS truthiness and `Array.isArray`. -/

/-- Parsed JSON values as seen by the response handlers. -/
inductive JVal where
  | jnull
  | jbool (b : Bool)
  | jnum (n : Int)
  | jstr (s : String)
  | jarr (xs : List JVal)
  | jobj (fields : List (String × JVal))

/-- JS truthiness of a parsed JSON value (objects and arrays are truthy;
`null`, `false`, `0` and `""` are falsy). -/
def JVal.truthy : JVal → Bool
  | .jnull => false
  | .jbool b => b
  | .jnum n => n != 0
  | .jstr s => s != ""
  | .jarr _ => true
  | .jobj _ => true

/-- JS `Array.isArray`. -/
def JVal.isArr : JVal → Bool
  | .jarr _ => true
  | _ => false

/-- JS `Object`-ness, written from the spec's words (spec section 6: the
portfolio and stats endpoints return objects): used only to state what a
well-shaped body is for each resource per the spec, next to the code's
actual guards. -/
def JVal.isObj : JVal → Bool
  | .jobj _ => true
  | _ => false

/-! ## Data Synchronizer: the resource merge of one tick
(`fetchData`, App.jsx lines 172-188)

Six requests are dispatched with `Promise.all`; each carries its own
`.catch(() => ({ data: default }))`, so an individual failure is replaced by
that resource's fallback body and never rejects the batch.  Each settled
body then passes through its guard (`Array.isArray(...)` or plain
truthiness) before being written to the resource's view state. -/

/-- The six tracked resources of one synchronizer tick. -/
inductive Resource where
  | positions
  | portfolio
  | trades
  | stats
  | chart
  | market
deriving DecidableEq

/-- Result of one resource fetch: a response body, or a rejection
(network error or non-2xx status, which makes `axios` throw). -/
inductive FetchResult where
  | ok (body : JVal)
  | err

/-- The fallback body substituted by each request's `.catch` handler
(App.jsx lines 174-179). -/
def defaultBody : Resource → JVal
  | .positions => .jarr []
  | .portfolio => .jobj [("usdt_balance", .jnum 0), ("assets", .jarr [])]
  | .trades => .jarr []
  | .stats => .jobj []
  | .chart => .jarr []
  | .market => .jarr []

/-- The guard each settled body must pass before being applied
(App.jsx lines 182-187): `Array.isArray` for the array-valued resources,
plain truthiness for `portfolio` and `stats`. -/
def resourceGuard : Resource → JVal → Bool
  | .positions, v => v.isArr
  | .portfolio, v => v.truthy
  | .trades, v => v.isArr
  | .stats, v => v.truthy
  | .chart, v => v.isArr
  | .market, v => v.isArr

/-- The expected shape of each resource body per the spec
(spec section 6: arrays for positions/trades/chart/market, objects for
portfolio/stats).  Written from the spec's words, for comparison with
`resourceGuard`. -/
def wellFormedSpecBody : Resource → JVal → Bool
  | .positions, v => v.isArr
  | .portfolio, v => v.isObj
  | .trades, v => v.isArr
  | .stats, v => v.isObj
  | .chart, v => v.isArr
  | .market, v => v.isArr

/-- How one resource's view state is updated by its settled fetch: a
rejection is first replaced by the `.catch` fallback body, then the guard
decides whether the settled body overwrites the previous value. -/
def applyFetch (r : Resource) (prev : JVal) (f : FetchResult) : JVal :=
  let body := match f with
    | .ok b => b
    | .err => defaultBody r
  if resourceGuard r body then body else prev

/-- One synchronizer tick's resource merge: every resource is settled and
applied independently (the `Promise.all` of App.jsx line 173 plus the six
guarded setters). -/
def tick (vs : Resource → JVal) (f : Resource → FetchResult) :
    Resource → JVal :=
  fun r => applyFetch r (vs r) (f r)

/-! ## Chart fetches across symbol switches
(`handleSearch`, App.jsx lines 224-236, and the chart leg of `fetchData`)

`handleSearch` clears the chart and changes the observed symbol; each
`fetchData` run issues a chart request for the symbol captured by its
closure; when a chart response settles, `fetchData` applies it through the
`Array.isArray` guard with no comparison against the currently observed
symbol. -/

/-- The symbol rewrite of `handleSearch` (App.jsx lines 226-231). -/
def searchTransform (input : String) : String :=
  let sym := toUpperStr input
  if containsSub ['/'] sym.data then sym
  else if 5 < sym.data.length then sym ++ "/USDT" else sym

/-- Chart-relevant view state: the observed symbol, the chart series, and
the symbols of the in-flight chart requests in issue order. -/
structure ChartState where
  activeSymbol : String
  chartData : JVal
  pending : List String

/-- Initial chart state (App.jsx lines 75 and 84). -/
def chartInit : ChartState := ⟨"BTC/USDT", .jarr [], []⟩

/-- Events of the chart interleaving: the user submits a search, a
`fetchData` run issues a chart request for the current symbol, or the `i`-th
in-flight request settles with `data`. -/
inductive ChartEvent where
  | search (input : String)
  | issue
  | arrive (i : Nat) (data : JVal)

/-- One step of the chart interleaving.  On `search` with non-empty input
the chart is cleared and the symbol switched (App.jsx lines 232-233); on
`arrive` the settled body is applied through `Array.isArray` alone — the
pending entry's symbol tag is dropped without ever being compared to
`activeSymbol` (App.jsx line 186). -/
def chartStep (s : ChartState) : ChartEvent → ChartState
  | .search input =>
      if input = "" then s
      else ⟨searchTransform input, .jarr [], s.pending⟩
  | .issue => ⟨s.activeSymbol, s.chartData, s.pending ++ [s.activeSymbol]⟩
  | .arrive i data =>
      if i < s.pending.length then
        ⟨s.activeSymbol,
         if data.isArr then data else s.chartData,
         s.pending.eraseIdx i⟩
      else s

/-- Chart state after a sequence of events. -/
def chartRun (s : ChartState) (evs : List ChartEvent) : ChartState :=
  evs.foldl chartStep s

/-! ## Session Store (App.jsx lines 93-94 and 153-158) and the
fetch gate (App.jsx line 161) -/

/-- Session state: the two persisted `localStorage` entries and the two
in-memory copies. -/
structure SessionState where
  storedToken : Option String
  storedUser : Option Nat
  authToken : Option String
  user : Option Nat
deriving DecidableEq

/-- `logout` (App.jsx lines 153-158): removes both persisted keys and nulls
both in-memory copies. -/
def logout (_s : SessionState) : SessionState := ⟨none, none, none, none⟩

/-- `current()`: the in-memory session identity. -/
def currentSession (s : SessionState) : Option Nat := s.user

/-- The HTTP requests one `fetchData` run can issue. -/
inductive ApiRequest where
  | status (uid : Nat)
  | positions (uid : Nat)
  | portfolio (uid : Nat)
  | trades (uid : Nat)
  | stats (uid : Nat)
  | chart (symbol timeframe : String)
  | marketData (uid : Nat)
deriving DecidableEq

/-- The requests issued by one `fetchData` run (App.jsx lines 160-180):
none at all without a session (line 161: `if (!user) return`); otherwise the
status probe, followed by the six resource requests only when the probe did
not throw (`probeOk`). -/
def fetchDataRequests (user : Option Nat) (activeSymbol timeframe : String)
    (probeOk : Bool) : List ApiRequest :=
  match user with
  | none => []
  | some uid =>
      if probeOk then
        [.status uid, .positions uid, .portfolio uid, .trades uid,
         .stats uid, .chart activeSymbol timeframe, .marketData uid]
      else [.status uid]

/-! ## Bot Controller (`toggleBot`, App.jsx lines 207-222, and its button,
App.jsx lines 714-721) -/

/-- A control command sent to the backend. -/
inductive ControlCmd where
  | start (uid : Nat)
  | stop (uid : Nat)
deriving DecidableEq

/-- Result classification of one toggle attempt, per the spec's error
taxonomy. -/
inductive ToggleResult where
  | notReady
  | ok
  | controlFailed
deriving DecidableEq

/-- Observable outcome of one toggle attempt: its result, the final value of
the `loading` flag, the control commands actually sent, and whether a
deferred `fetchData` refresh was scheduled. -/
structure ToggleOutcome where
  result : ToggleResult
  loadingFinal : Bool
  requests : List ControlCmd
  refreshScheduled : Bool
deriving DecidableEq

/-- `toggleBot` (App.jsx lines 207-222).  Without a session it alerts and
returns before touching `loading` or the network.  With a session it sets
`loading`, posts stop or start according to the current `status.is_running`,
schedules `fetchData` after 1.5s on success, and the `finally` block always
clears `loading`.  `netOk` models whether the POST succeeds. -/
def toggleBot (user : Option Nat) (loading0 isRunning netOk : Bool) :
    ToggleOutcome :=
  match user with
  | none => ⟨.notReady, loading0, [], false⟩
  | some uid =>
      let cmd := if isRunning then ControlCmd.stop uid else ControlCmd.start uid
      if netOk then ⟨.ok, false, [cmd], true⟩
      else ⟨.controlFailed, false, [cmd], false⟩

/-- The toggle control surface as exposed to the operator: the sidebar
button is disabled while `loading` is set or the link is not active
(App.jsx line 716, `disabled={loading || !connectionActive}`), so a press in
those states is a no-op before `toggleBot` can run. -/
def toggleViaButton (user : Option Nat)
    (connectionActive loading0 isRunning netOk : Bool) : ToggleOutcome :=
  if loading0 || !connectionActive then ⟨.notReady, loading0, [], false⟩
  else toggleBot user loading0 isRunning netOk

/-! # Theorems -/

/-! ## Heartbeat lemmas -/

theorem hbStep_preserves_lt (t : Nat) (ht : 0 < t) (s : HBState)
    (o : ProbeOutcome)
    (_h : s.connectionActive = true → s.failCount < t) :
    (hbStep t s o).connectionActive = true → (hbStep t s o).failCount < t := by
  cases o with
  | success => intro _; simpa using ht
  | failure =>
      intro ha
      simp only [hbStep] at ha ⊢
      by_cases hle : t ≤ s.failCount + 1
      · simp [hle] at ha
      · omega

theorem hbRun_foldl_inv (t : Nat) (ht : 0 < t) (tr : List ProbeOutcome) :
    ∀ s : HBState, (s.connectionActive = true → s.failCount < t) →
      ((tr.foldl (hbStep t) s).connectionActive = true →
        (tr.foldl (hbStep t) s).failCount < t) := by
  induction tr with
  | nil => intro s hs; simpa using hs
  | cons o tr ih =>
      intro s hs
      exact ih (hbStep t s o) (hbStep_preserves_lt t ht s o hs)

/-- In every reachable state, `connectionActive` implies the failure counter
is below the threshold. -/
theorem hbRun_active_lt (t : Nat) (ht : 0 < t) (tr : List ProbeOutcome) :
    (hbRun t tr).connectionActive = true → (hbRun t tr).failCount < t := by
  refine hbRun_foldl_inv t ht tr hbInit ?_
  intro h
  simp [hbInit] at h

/-- Running `k` consecutive failures from the state right after a success:
the counter is `k` and the link stays active exactly while `k < t`. -/
theorem hbRun_replicate_failure (t : Nat) (ht : 0 < t) :
    ∀ k : Nat,
      (List.replicate k ProbeOutcome.failure).foldl (hbStep t) ⟨true, 0⟩ =
        ⟨decide (k < t), k⟩ := by
  intro k
  induction k with
  | zero => simp [ht]
  | succ k ih =>
      rw [List.replicate_succ', List.foldl_append, ih]
      simp only [List.foldl_cons, List.foldl_nil, hbStep]
      by_cases hle : t ≤ k + 1
      · have : ¬ (k + 1 < t) := by omega
        simp [hle, this]
      · have h1 : k + 1 < t := by omega
        have h2 : k < t := by omega
        simp [hle, h1, h2]

theorem hbRun_append (t : Nat) (tr l : List ProbeOutcome) :
    hbRun t (tr ++ l) = l.foldl (hbStep t) (hbRun t tr) := by
  simp [hbRun, List.foldl_append]

/-! ## Claim C1 -/

/-- Claim C1: for every sequence of heartbeat probe outcomes from the
initial connection state, and for any positive threshold (the code fixes
`failThreshold = 5`, but the threshold is treated as tunable configuration):
after a probe success the signal stays Up through fewer than `threshold`
consecutive failures and is Down after exactly `threshold` of them; every
transition of the signal out of Up is caused by a probe failure arriving
when exactly `threshold` consecutive failures have then accumulated; one
probe success after any Down state restores Up; and no number of further
failures (zero successes) ever restores Up. -/
theorem c1_hysteresis (t : Nat) (ht : 0 < t) :
    (∀ tr k, k < t →
        (hbRun t (tr ++ ProbeOutcome.success ::
          List.replicate k ProbeOutcome.failure)).connectionActive = true)
  ∧ (∀ tr,
        (hbRun t (tr ++ ProbeOutcome.success ::
          List.replicate t ProbeOutcome.failure)).connectionActive = false)
  ∧ (∀ tr o, (hbRun t tr).connectionActive = true →
        (hbRun t (tr ++ [o])).connectionActive = false →
        o = ProbeOutcome.failure ∧ (hbRun t tr).failCount + 1 = t ∧
          (hbRun t (tr ++ [o])).failCount = t)
  ∧ (∀ tr, (hbRun t (tr ++ [ProbeOutcome.success])).connectionActive = true)
  ∧ (∀ tr, (hbRun t tr).connectionActive = false →
        (hbRun t (tr ++ [ProbeOutcome.failure])).connectionActive = false) := by
  refine ⟨?_, ?_, ?_, ?_, ?_⟩
  · intro tr k hk
    rw [hbRun_append, List.foldl_cons]
    have hs : hbStep t (hbRun t tr) ProbeOutcome.success = ⟨true, 0⟩ := rfl
    rw [hs, hbRun_replicate_failure t ht k]
    simpa using hk
  · intro tr
    rw [hbRun_append, List.foldl_cons]
    have hs : hbStep t (hbRun t tr) ProbeOutcome.success = ⟨true, 0⟩ := rfl
    rw [hs, hbRun_replicate_failure t ht t]
    simp
  · intro tr o hup hdown
    rw [hbRun_append] at hdown
    have hlt : (hbRun t tr).failCount < t := hbRun_active_lt t ht tr hup
    cases o with
    | success => simp [hbStep] at hdown
    | failure =>
        refine ⟨rfl, ?_, ?_⟩
        · simp only [List.foldl_cons, List.foldl_nil, hbStep, hup] at hdown
          by_cases hle : t ≤ (hbRun t tr).failCount + 1
          · omega
          · simp [hle] at hdown
        · rw [hbRun_append]
          simp only [List.foldl_cons, List.foldl_nil, hbStep, hup] at hdown ⊢
          by_cases hle : t ≤ (hbRun t tr).failCount + 1
          · omega
          · simp [hle] at hdown
  · intro tr
    rw [hbRun_append]
    rfl
  · intro tr hdn
    rw [hbRun_append]
    simp only [List.foldl_cons, List.foldl_nil, hbStep, hdn]
    by_cases hle : t ≤ (hbRun t tr).failCount + 1 <;> simp [hle, hdn]

theorem c1_hysteresis_witness :
    0 < failThreshold ∧
      (hbRun failThreshold ([] ++ ProbeOutcome.success ::
        List.replicate 4 ProbeOutcome.failure)).connectionActive = true :=
  ⟨by decide, (c1_hysteresis failThreshold (by decide)).1 [] 4 (by decide)⟩

/-! ## Claim C2 -/

/-- Claim C2 is false as stated: one success followed by one failure leaves
the monitor in a reachable state whose connection-health signal is Up while
the consecutive-failure counter is 1 (the code keeps the link marked active
until the counter reaches the threshold). -/
theorem c2_counterexample :
    (hbRun failThreshold
        [ProbeOutcome.success, ProbeOutcome.failure]).connectionActive = true
  ∧ (hbRun failThreshold
        [ProbeOutcome.success, ProbeOutcome.failure]).failCount = 1 := by
  decide

/-- Claim C2 amended: in every reachable state of the heartbeat monitor
(any positive threshold), if the connection-health signal is Up then the
consecutive-failure counter is below the threshold — not necessarily
zero. -/
theorem c2_amended (t : Nat) (ht : 0 < t) (tr : List ProbeOutcome)
    (h : (hbRun t tr).connectionActive = true) :
    (hbRun t tr).failCount < t :=
  hbRun_active_lt t ht tr h

theorem c2_amended_witness :
    0 < failThreshold ∧
      (hbRun failThreshold [ProbeOutcome.success, ProbeOutcome.failure,
        ProbeOutcome.failure]).connectionActive = true ∧
      (hbRun failThreshold [ProbeOutcome.success, ProbeOutcome.failure,
        ProbeOutcome.failure]).failCount < failThreshold :=
  ⟨by decide, by decide,
    c2_amended failThreshold (by decide)
      [ProbeOutcome.success, ProbeOutcome.failure, ProbeOutcome.failure]
      (by decide)⟩

/-! ## String lemmas for the resolver -/

theorem length_le_of_listPref :
    ∀ p q : List Char, listPref p q = true → p.length ≤ q.length := by
  intro p
  induction p with
  | nil => intro q _; exact Nat.zero_le _
  | cons a as ih =>
      intro q h
      cases q with
      | nil => simp [listPref] at h
      | cons b bs =>
          simp only [listPref, Bool.and_eq_true] at h
          simpa using ih bs h.2

theorem listPref_append_right :
    ∀ p q r : List Char, listPref p q = true → listPref p (q ++ r) = true := by
  intro p
  induction p with
  | nil => intro q r _; rfl
  | cons a as ih =>
      intro q r h
      cases q with
      | nil => simp [listPref] at h
      | cons b bs =>
          simp only [listPref, Bool.and_eq_true] at h
          simp only [List.cons_append, listPref, Bool.and_eq_true]
          exact ⟨h.1, ih bs r h.2⟩

theorem ne_empty_of_data_ne (s : String) (h : s.data ≠ []) : s ≠ "" := by
  intro he
  apply h
  rw [he]

theorem stripTrailingSlash_ne_empty (s : String) (h2 : 2 ≤ s.data.length) :
    stripTrailingSlash s ≠ "" := by
  unfold stripTrailingSlash
  by_cases hl : s.data.getLast? = some '/'
  · rw [if_pos hl]
    apply ne_empty_of_data_ne
    show s.data.dropLast ≠ []
    intro hnil
    have hlen := congrArg List.length hnil
    rw [List.length_dropLast] at hlen
    simp only [List.length_nil] at hlen
    omega
  · rw [if_neg hl]
    apply ne_empty_of_data_ne
    intro hnil
    rw [hnil] at h2
    simp at h2

theorem startsWithHttp_append_https (s : String) :
    startsWithHttp ("https://" ++ s) = true := by
  unfold startsWithHttp
  rw [String.data_append]
  exact listPref_append_right _ _ _ (by decide)

theorem append_https_data_length (s : String) :
    ("https://" ++ s).data.length = 8 + s.data.length := by
  rw [String.data_append, List.length_append]
  rfl

theorem append_https_ne_empty (s : String) : "https://" ++ s ≠ "" := by
  apply ne_empty_of_data_ne
  intro h
  have := congrArg List.length h
  rw [append_https_data_length] at this
  simp at this

theorem four_le_of_startsWithHttp (s : String) (h : startsWithHttp s = true) :
    4 ≤ s.data.length := by
  have := length_le_of_listPref "http".data s.data h
  simpa using this

theorem saveRoute_startsWithHttp (s : String) :
    startsWithHttp (saveRoute s) = true := by
  unfold saveRoute
  by_cases h : startsWithHttp (stripTrailingSlash (jsTrim s)) = true
  · rw [if_pos h]
    exact h
  · rw [if_neg h]
    exact startsWithHttp_append_https _

theorem saveRoute_ne_empty (s : String) : saveRoute s ≠ "" := by
  unfold saveRoute
  by_cases h : startsWithHttp (stripTrailingSlash (jsTrim s)) = true
  · rw [if_pos h]
    apply ne_empty_of_data_ne
    intro hnil
    have h4 := four_le_of_startsWithHttp _ h
    rw [hnil] at h4
    simp at h4
  · rw [if_neg h]
    exact append_https_ne_empty _

/-! ## Resolver branch lemmas -/

theorem baseCandidate_host (env hostname : String)
    (hh : hostOnRender hostname = true) :
    baseCandidate env hostname = renderDefaultUrl := by
  simp [baseCandidate, hh]

theorem baseCandidate_env (env hostname : String)
    (hh : hostOnRender hostname = false) :
    baseCandidate env hostname = env := by
  simp [baseCandidate, hh]

theorem resolveEnvPath_host (env hostname : String)
    (hh : hostOnRender hostname = true) :
    resolveEnvPath env hostname = renderDefaultUrl := by
  unfold resolveEnvPath
  rw [baseCandidate_host env hostname hh]
  decide

theorem resolveEnvPath_env_http (env hostname : String)
    (hh : hostOnRender hostname = false) (he : startsWithHttp env = true) :
    resolveEnvPath env hostname = stripTrailingSlash env := by
  have hb := baseCandidate_env env hostname hh
  have hw : withScheme env = env := by
    unfold withScheme
    rw [if_neg]
    intro hc
    rw [he] at hc
    exact absurd hc.1 (by decide)
  have hne : stripTrailingSlash env ≠ "" := by
    apply stripTrailingSlash_ne_empty
    have := four_le_of_startsWithHttp env he
    omega
  unfold resolveEnvPath
  rw [hb, hw, if_neg hne]

theorem resolveEnvPath_env_nohttp (env hostname : String)
    (hh : hostOnRender hostname = false) (he : startsWithHttp env = false)
    (hne : env ≠ "") :
    resolveEnvPath env hostname = stripTrailingSlash ("https://" ++ env) := by
  have hb := baseCandidate_env env hostname hh
  have hw : withScheme env = "https://" ++ env := by
    unfold withScheme
    rw [if_pos (And.intro he hne)]
  have hs : stripTrailingSlash ("https://" ++ env) ≠ "" := by
    apply stripTrailingSlash_ne_empty
    rw [append_https_data_length]
    omega
  unfold resolveEnvPath
  rw [hb, hw, if_neg hs]

theorem resolveEnvPath_empty (hostname : String)
    (hh : hostOnRender hostname = false) :
    resolveEnvPath "" hostname = renderDefaultUrl := by
  unfold resolveEnvPath
  rw [baseCandidate_env "" hostname hh]
  decide

theorem getInitialApiBase_falsy (saved : Option String) (env hostname : String)
    (h : saved = none ∨ saved = some "") :
    getInitialApiBase saved env hostname = resolveEnvPath env hostname := by
  rcases h with h | h <;> subst h <;> simp [getInitialApiBase]

theorem getInitialApiBase_some (s env hostname : String) (h : s ≠ "") :
    getInitialApiBase (some s) env hostname = s := by
  simp [getInitialApiBase, h]

/-! ## Claim C3 -/

/-- Claim C3 is false as stated: with no stored override, a non-empty
environment default `https://myapi.example.com`, and a host name containing
`onrender.com`, `resolve()` returns the host-heuristic URL, not the
environment default — the heuristic overwrites the environment default
rather than yielding to it. -/
theorem c3_counterexample :
    getInitialApiBase none "https://myapi.example.com" "myapp.onrender.com"
      = renderDefaultUrl
  ∧ renderDefaultUrl ≠ "https://myapi.example.com"
  ∧ ("https://myapi.example.com" : String) ≠ "" := by
  refine ⟨by decide, by decide, by decide⟩

/-- Claim C3 amended: `resolve()` evaluates its sources in the strict
priority order stored override, host-name heuristic, environment default
(the heuristic outranks the environment default, contrary to the claim).  A
non-empty stored override is returned verbatim regardless of the other two
inputs; otherwise, when the host name contains `onrender.com`, the
hard-coded render URL wins regardless of the environment default; otherwise
a non-empty environment default is used after normalization; and when all
sources are empty the hard-coded fallback is returned. -/
theorem c3_amended (saved : Option String) (env hostname : String) :
    (∀ s : String, saved = some s → s ≠ "" →
        getInitialApiBase saved env hostname = s)
  ∧ (saved = none ∨ saved = some "" → hostOnRender hostname = true →
        getInitialApiBase saved env hostname = renderDefaultUrl)
  ∧ (saved = none ∨ saved = some "" → hostOnRender hostname = false →
        startsWithHttp env = true →
        getInitialApiBase saved env hostname = stripTrailingSlash env)
  ∧ (saved = none ∨ saved = some "" → hostOnRender hostname = false →
        startsWithHttp env = false → env ≠ "" →
        getInitialApiBase saved env hostname
          = stripTrailingSlash ("https://" ++ env))
  ∧ (saved = none ∨ saved = some "" → hostOnRender hostname = false →
        env = "" →
        getInitialApiBase saved env hostname = renderDefaultUrl) := by
  refine ⟨?_, ?_, ?_, ?_, ?_⟩
  · intro s hs hne
    subst hs
    exact getInitialApiBase_some s env hostname hne
  · intro hf hh
    rw [getInitialApiBase_falsy saved env hostname hf]
    exact resolveEnvPath_host env hostname hh
  · intro hf hh he
    rw [getInitialApiBase_falsy saved env hostname hf]
    exact resolveEnvPath_env_http env hostname hh he
  · intro hf hh he hne
    rw [getInitialApiBase_falsy saved env hostname hf]
    exact resolveEnvPath_env_nohttp env hostname hh he hne
  · intro hf hh he
    subst he
    rw [getInitialApiBase_falsy saved "" hostname hf]
    exact resolveEnvPath_empty hostname hh

theorem c3_amended_witness :
    getInitialApiBase none "https://myapi.example.com" "app.onrender.com"
      = renderDefaultUrl :=
  (c3_amended none "https://myapi.example.com" "app.onrender.com").2.1
    (Or.inl rfl) (by decide)

/-! ## Claim C4 -/

/-- Claim C4 is false as stated: the environment default
`httpx.example.com` has no URL scheme, yet `resolve()` returns it unchanged
— no `https://` is prefixed, because the code tests the literal prefix
`http`, not the presence of a scheme. -/
theorem c4_counterexample :
    getInitialApiBase none "httpx.example.com" "localhost"
      = "httpx.example.com"
  ∧ hasSchemeSpec "httpx.example.com" = false := by
  exact ⟨by decide, by decide⟩

/-- Claim C4 amended: the override is normalized at save time — trimmed,
one trailing slash stripped, and `https://` prefixed exactly when the
string does not start with the literal `http` (so a scheme-less string
beginning with `http`, such as `httpx.example.com`, is stored without a
scheme); `resolve()` then returns the stored override verbatim, so after
`override("example.com")` it returns `https://example.com` even if the
environment default is set. -/
theorem c4_amended (input env hostname : String) :
    getInitialApiBase (some (saveRoute input)) env hostname = saveRoute input
  ∧ startsWithHttp (saveRoute input) = true
  ∧ getInitialApiBase (some (saveRoute "example.com")) env hostname
      = "https://example.com" := by
  refine ⟨getInitialApiBase_some _ env hostname (saveRoute_ne_empty input),
    saveRoute_startsWithHttp input, ?_⟩
  have h : saveRoute "example.com" = "https://example.com" := by decide
  rw [h]
  exact getInitialApiBase_some _ env hostname (by decide)

/-! ## Tick lemmas -/

theorem resourceGuard_defaultBody (r : Resource) :
    resourceGuard r (defaultBody r) = true := by
  cases r <;> rfl

theorem tick_err (vs : Resource → JVal) (f : Resource → FetchResult)
    (r : Resource) (h : f r = FetchResult.err) :
    tick vs f r = defaultBody r := by
  simp [tick, applyFetch, h, resourceGuard_defaultBody]

theorem tick_ok_pass (vs : Resource → JVal) (f : Resource → FetchResult)
    (r : Resource) (b : JVal) (hf : f r = FetchResult.ok b)
    (hg : resourceGuard r b = true) :
    tick vs f r = b := by
  simp [tick, applyFetch, hf, hg]

theorem tick_ok_reject (vs : Resource → JVal) (f : Resource → FetchResult)
    (r : Resource) (b : JVal) (hf : f r = FetchResult.ok b)
    (hg : resourceGuard r b = false) :
    tick vs f r = vs r := by
  simp [tick, applyFetch, hf, hg]

theorem tick_frame (vs : Resource → JVal) (f g : Resource → FetchResult)
    (r : Resource) (hfg : ∀ r', r' ≠ r → f r' = g r') :
    ∀ r', r' ≠ r → tick vs f r' = tick vs g r' := by
  intro r' hr
  unfold tick
  rw [hfg r' hr]

/-! ## Claim C5 -/

/-- Claim C5 is false as stated: in a tick where only the trade-log fetch
fails and every other resource fetch succeeds, the trade log does not keep
its previous last-good value — the `.catch` fallback resets it to the empty
array.  The succeeding resources do update normally. -/
theorem c5_counterexample :
    tick (fun _ => JVal.jarr [JVal.jbool true])
      (fun r => if r = Resource.trades then FetchResult.err
        else FetchResult.ok (JVal.jarr [JVal.jbool false]))
      Resource.trades = JVal.jarr []
  ∧ JVal.jarr [] ≠ JVal.jarr [JVal.jbool true]
  ∧ tick (fun _ => JVal.jarr [JVal.jbool true])
      (fun r => if r = Resource.trades then FetchResult.err
        else FetchResult.ok (JVal.jarr [JVal.jbool false]))
      Resource.positions = JVal.jarr [JVal.jbool false] := by
  refine ⟨rfl, ?_, rfl⟩
  intro h
  injection h with h1
  exact List.noConfusion h1

/-- Claim C5 amended: in every tick, each failed resource fetch resets that
resource to its declared fallback value (instead of keeping the previous
one); each succeeding resource whose body passes its guard updates
normally; and one resource's fetch outcome never affects any other
resource's value — the batch is never aborted and other resources are
never rolled back or blanked by a failure elsewhere. -/
theorem c5_amended (vs : Resource → JVal) (f g : Resource → FetchResult) :
    (∀ r, f r = FetchResult.err → tick vs f r = defaultBody r)
  ∧ (∀ r b, f r = FetchResult.ok b → resourceGuard r b = true →
      tick vs f r = b)
  ∧ (∀ r, (∀ r', r' ≠ r → f r' = g r') →
      ∀ r', r' ≠ r → tick vs f r' = tick vs g r') := by
  refine ⟨?_, ?_, ?_⟩
  · intro r h
    exact tick_err vs f r h
  · intro r b hf hg
    exact tick_ok_pass vs f r b hf hg
  · intro r hfg r' hr
    exact tick_frame vs f g r hfg r' hr

theorem c5_amended_witness :
    tick (fun _ => JVal.jarr []) (fun _ => FetchResult.err) Resource.trades
      = defaultBody Resource.trades :=
  (c5_amended (fun _ => JVal.jarr []) (fun _ => FetchResult.err)
    (fun _ => FetchResult.err)).1 Resource.trades rfl

/-! ## Claim C8 -/

/-- Claim C8 is false as stated: a 2xx response for the portfolio resource
whose body is the JSON string `"oops"` does not match the resource's
expected object shape, yet it is applied to the portfolio view state — the
guard for portfolio is plain truthiness, not a shape check. -/
theorem c8_counterexample :
    tick (fun r => defaultBody r)
      (fun _ => FetchResult.ok (JVal.jstr "oops")) Resource.portfolio
      = JVal.jstr "oops"
  ∧ wellFormedSpecBody Resource.portfolio (JVal.jstr "oops") = false
  ∧ JVal.jstr "oops" ≠ defaultBody Resource.portfolio := by
  refine ⟨rfl, rfl, ?_⟩
  intro h
  exact JVal.noConfusion h

/-- Claim C8 amended: a non-2xx response is a per-resource failure — its
error is replaced by the resource's fallback body, the tick is not aborted
and no hard error escapes, and other resources are unaffected.  A malformed
body is rejected (previous value kept) exactly when it fails the resource's
actual guard: a non-array body for the array-valued resources; for
`portfolio` and `stats` only falsy bodies are rejected, so a truthy
malformed body is applied there. -/
theorem c8_amended (vs : Resource → JVal) (f g : Resource → FetchResult) :
    (∀ r b, f r = FetchResult.ok b → resourceGuard r b = false →
      tick vs f r = vs r)
  ∧ (∀ r b, f r = FetchResult.ok b → JVal.isArr b = false →
      (r = Resource.positions ∨ r = Resource.trades ∨ r = Resource.chart ∨
        r = Resource.market) →
      tick vs f r = vs r)
  ∧ (∀ r, f r = FetchResult.err → tick vs f r = defaultBody r)
  ∧ (∀ r, (∀ r', r' ≠ r → f r' = g r') →
      ∀ r', r' ≠ r → tick vs f r' = tick vs g r') := by
  refine ⟨?_, ?_, ?_, ?_⟩
  · intro r b hf hg
    exact tick_ok_reject vs f r b hf hg
  · intro r b hf hb hr
    rcases hr with h | h | h | h <;> subst h <;>
      exact tick_ok_reject vs f _ b hf hb
  · intro r h
    exact tick_err vs f r h
  · intro r hfg r' hr
    exact tick_frame vs f g r hfg r' hr

theorem c8_amended_witness :
    tick (fun r => defaultBody r)
      (fun _ => FetchResult.ok JVal.jnull) Resource.positions
      = defaultBody Resource.positions :=
  (c8_amended (fun r => defaultBody r) (fun _ => FetchResult.ok JVal.jnull)
    (fun _ => FetchResult.ok JVal.jnull)).1 Resource.positions JVal.jnull
    rfl rfl

/-! ## Claim C6 -/

/-- Claim C6 is false as stated: a chart fetch is issued for BTC/USDT, the
observed symbol is switched to SOL/USDT, a fetch is issued for SOL/USDT,
SOL/USDT's response arrives, and BTC/USDT's response arrives last — the
final chart view state holds the stale BTC/USDT payload, not SOL/USDT's:
the late-arriving response for the stale symbol is applied, not
discarded. -/
theorem c6_counterexample :
    (chartRun chartInit
      [ChartEvent.issue,
       ChartEvent.search "SOL/USDT",
       ChartEvent.issue,
       ChartEvent.arrive 1 (JVal.jarr [JVal.jbool false]),
       ChartEvent.arrive 0 (JVal.jarr [JVal.jbool true])]).chartData
      = JVal.jarr [JVal.jbool true]
  ∧ (chartRun chartInit
      [ChartEvent.issue,
       ChartEvent.search "SOL/USDT",
       ChartEvent.issue,
       ChartEvent.arrive 1 (JVal.jarr [JVal.jbool false]),
       ChartEvent.arrive 0 (JVal.jarr [JVal.jbool true])]).activeSymbol
      = "SOL/USDT"
  ∧ JVal.jarr [JVal.jbool true] ≠ JVal.jarr [JVal.jbool false] := by
  refine ⟨rfl, rfl, ?_⟩
  intro h
  injection h with h1
  injection h1 with h2 h3
  injection h2 with h4
  exact Bool.noConfusion h4

/-- Claim C6 amended: switching the observed symbol clears the chart series
but does not invalidate in-flight fetches — every in-flight chart response
whose body is an array is applied to the chart view state on arrival,
regardless of the symbol it was issued for, so the final chart holds the
payload of whichever response arrives last, stale or not. -/
theorem c6_amended (s : ChartState) (i : Nat) (data : JVal)
    (hi : i < s.pending.length) (hd : JVal.isArr data = true) :
    (chartStep s (ChartEvent.arrive i data)).chartData = data
  ∧ (∀ input : String, input ≠ "" →
      (chartStep s (ChartEvent.search input)).chartData = JVal.jarr []) := by
  constructor
  · simp [chartStep, hi, hd]
  · intro input hin
    simp [chartStep, hin]

theorem c6_amended_witness :
    (chartStep ⟨"BTC/USDT", JVal.jarr [], ["BTC/USDT"]⟩
      (ChartEvent.arrive 0 (JVal.jarr [JVal.jbool true]))).chartData
      = JVal.jarr [JVal.jbool true] :=
  (c6_amended ⟨"BTC/USDT", JVal.jarr [], ["BTC/USDT"]⟩ 0
    (JVal.jarr [JVal.jbool true]) (by decide) rfl).1

/-! ## Claim C7 -/

/-- Claim C7: whenever no session is present or the connection-health
signal is not Up, a toggle attempt through the control surface (the
disabled-button gate composed with `toggleBot`) fails fast as NotReady and
issues zero network calls. -/
theorem c7_notready (user : Option Nat) (ca ld ir net : Bool)
    (h : user = none ∨ ca = false) :
    (toggleViaButton user ca ld ir net).result = ToggleResult.notReady
  ∧ (toggleViaButton user ca ld ir net).requests = [] := by
  rcases h with h | h
  · subst h
    unfold toggleViaButton toggleBot
    by_cases hd : (ld || !ca) = true
    · rw [if_pos hd]
      exact ⟨rfl, rfl⟩
    · rw [if_neg hd]
      exact ⟨rfl, rfl⟩
  · subst h
    unfold toggleViaButton
    have hd : (ld || !false) = true := by simp
    rw [if_pos hd]
    exact ⟨rfl, rfl⟩

theorem c7_notready_witness :
    (toggleViaButton none true false false true).result
      = ToggleResult.notReady
  ∧ (toggleViaButton none true false false true).requests = [] :=
  c7_notready none true false false true (Or.inl rfl)

/-! ## Claim C9 -/

/-- Claim C9: after `logout()` the persisted token and identity and both
in-memory copies are cleared, `current()` yields none, and every subsequent
`fetchData` tick issues no requests at all — no heartbeat probe and no
resource fetch — because the session precondition fails at the top of
`fetchData`. -/
theorem c9_logout (s : SessionState) (sym tf : String) (probeOk : Bool) :
    (logout s).storedToken = none
  ∧ (logout s).storedUser = none
  ∧ (logout s).authToken = none
  ∧ currentSession (logout s) = none
  ∧ fetchDataRequests (currentSession (logout s)) sym tf probeOk = [] :=
  ⟨rfl, rfl, rfl, rfl, rfl⟩

/-! ## Claim C10 -/

/-- Claim C10: every `toggleBot` invocation that passes the session
precondition ends with the `loading` flag false — the `finally` block
clears it whether the control command succeeds or fails — so a failed or
rejected control call never leaves the controller locked against later
invocations. -/
theorem c10_loading_reset (uid : Nat) (ld ir net : Bool) :
    (toggleBot (some uid) ld ir net).loadingFinal = false := by
  cases net <;> rfl

theorem c4_amended_witness :
    getInitialApiBase (some (saveRoute "example.com")) "env.example.com"
      "localhost" = "https://example.com" :=
  (c4_amended "example.com" "env.example.com" "localhost").2.2

theorem c9_logout_witness :
    (logout ⟨some "tok", some 7, some "tok", some 7⟩).storedToken = none
  ∧ (logout ⟨some "tok", some 7, some "tok", some 7⟩).storedUser = none
  ∧ (logout ⟨some "tok", some 7, some "tok", some 7⟩).authToken = none
  ∧ currentSession (logout ⟨some "tok", some 7, some "tok", some 7⟩) = none
  ∧ fetchDataRequests
      (currentSession (logout ⟨some "tok", some 7, some "tok", some 7⟩))
      "BTC/USDT" "5m" true = [] :=
  c9_logout ⟨some "tok", some 7, some "tok", some 7⟩ "BTC/USDT" "5m" true

theorem c10_loading_reset_witness :
    (toggleBot (some 7) true true false).loadingFinal = false :=
  c10_loading_reset 7 true true false
